import Mathlib

/-!
Shallow embedding of the SwapIt rating subsystem
(src/backend/controllers/ratingController.js) together with proofs of the
specification's claims about it.

Modelling conventions:
* MongoDB documents become Lean structures; the document store becomes a
  `Store` structure holding the four collections as lists in insertion order.
* `Model.findById x` / `Model.findOne q` become `List.find?` over the
  corresponding collection; `Model.find q` becomes `List.filter`;
  `.sort(\x7b createdAt: -1 \x7d)` becomes an insertion sort by descending
  `createdAt`; inserting a document appends to the list.
* JavaScript numbers carried in a request body are modelled as `ℚ`
  (the handlers only ever compare, add and divide them); `parseFloat(x.toFixed(1))`
  becomes `round1` (round to nearest tenth, ties toward +∞, exact on the
  positive values produced here); `new Date()` becomes an explicit `now : ℕ`
  parameter, and generated ObjectIds become an explicit `newId` parameter.
* A JS falsy check `!v` on a request-body string becomes `v = ""` (absent and
  empty collapse), and on a request-body number becomes `v = 0`.
* Each handler returns an inductive result mirroring the distinct
  `res.status(..).json(..)` exits of the source; mutating handlers also return
  the post-call store.  The spec's error taxonomy maps onto constructors as
  noted in comments (`ValidationError` = 400 on malformed input,
  `NotFoundError` = 404, `ForbiddenError` = 403, `ConflictError` = the
  duplicate-rating 400).
-/

namespace SwapIt

/-- A `User` document, restricted to the fields the rating controller reads. -/
structure User where
  id : String
  fullname : String
  email : String
  role : String
deriving DecidableEq

/-- A `SkillListing` document, restricted to the fields the controller reads. -/
structure SkillListing where
  id : String
  title : String
deriving DecidableEq

/-- A `Session` document, restricted to the fields the controller queries. -/
structure Session where
  learnerID : String
  teacherID : String
  skillListingID : String
  status : String
deriving DecidableEq

/-- A `Rating` document as created by `createRating`: the three references,
the numeric score (field `rating` in the source) and the creation timestamp. -/
structure Rating where
  id : String
  learnerID : String
  teacherID : String
  listingID : String
  rating : ℚ
  createdAt : ℕ
deriving DecidableEq

/-- The document store: the four collections, each in insertion order. -/
structure Store where
  users : List User
  listings : List SkillListing
  sessions : List Session
  ratings : List Rating
deriving DecidableEq

/-- Models `User.findById id` and `User.findOne \x7b _id \x7d`. -/
def findUser (s : Store) (uid : String) : Option User :=
  s.users.find? (fun u => u.id == uid)

/-- Models `SkillListing.findById id`. -/
def findListing (s : Store) (lid : String) : Option SkillListing :=
  s.listings.find? (fun l => l.id == lid)

/-- Models `Rating.findById id`. -/
def findRatingById (s : Store) (rid : String) : Option Rating :=
  s.ratings.find? (fun r => r.id == rid)

/-- Models `Session.findOne \x7b learnerID, teacherID, skillListingID, status: "completed" \x7d`. -/
def findCompletedSession (s : Store) (learnerID teacherID listingID : String) :
    Option Session :=
  s.sessions.find? (fun c =>
    c.learnerID == learnerID && c.teacherID == teacherID &&
    c.skillListingID == listingID && c.status == "completed")

/-- Models `Rating.findOne \x7b learnerID, teacherID, listingID \x7d`. -/
def findRatingByTriple (s : Store) (learnerID teacherID listingID : String) :
    Option Rating :=
  s.ratings.find? (fun r =>
    r.learnerID == learnerID && r.teacherID == teacherID && r.listingID == listingID)

/-- Models `.sort(\x7b createdAt: -1 \x7d)`: newest-created first. -/
def sortByCreatedAtDesc (l : List Rating) : List Rating :=
  List.insertionSort (fun a b => b.createdAt ≤ a.createdAt) l

/-- Models `ratings.reduce((sum, r) => sum + r.rating, 0)`. -/
def sumScores (l : List Rating) : ℚ :=
  (l.map (fun r => r.rating)).sum

/-- The arithmetic mean of the scores of a list of ratings. -/
def avgScore (l : List Rating) : ℚ :=
  sumScores l / l.length

/-- Models `parseFloat(x.toFixed(1))`: round to one decimal place (nearest tenth,
ties toward the larger value, as ECMAScript `toFixed` does for the positive
values arising here). -/
def round1 (q : ℚ) : ℚ :=
  ((round (10 * q) : ℤ) : ℚ) / 10

/-- Models `Math.max(...xs)` for a nonempty list (the handlers only call it on
nonempty result sets). -/
def listMax : List ℚ → ℚ
  | [] => 0
  | a :: t => t.foldl max a

/-- Models `Math.min(...xs)` for a nonempty list. -/
def listMin : List ℚ → ℚ
  | [] => 0
  | a :: t => t.foldl min a

/-- The `.populate(...)` projection of a rating: the referenced learner's and
teacher's `fullname`/`email` and the listing's `title`, looked up at response
time (`none` when the reference does not resolve). -/
structure PopulatedRating where
  id : String
  learnerID : String
  teacherID : String
  listingID : String
  rating : ℚ
  createdAt : ℕ
  learnerName : Option String
  learnerEmail : Option String
  teacherName : Option String
  teacherEmail : Option String
  listingTitle : Option String
deriving DecidableEq

/-- Populate a rating against the store, as the `.populate` chains do. -/
def populateRating (s : Store) (r : Rating) : PopulatedRating :=
  { id := r.id, learnerID := r.learnerID, teacherID := r.teacherID
    listingID := r.listingID, rating := r.rating, createdAt := r.createdAt
    learnerName := (findUser s r.learnerID).map (fun u => u.fullname)
    learnerEmail := (findUser s r.learnerID).map (fun u => u.email)
    teacherName := (findUser s r.teacherID).map (fun u => u.fullname)
    teacherEmail := (findUser s r.teacherID).map (fun u => u.email)
    listingTitle := (findListing s r.listingID).map (fun l => l.title) }

/-- The distinct exits of `createRating`.  Spec taxonomy: `missingFields` and
`scoreOutOfRange` are `ValidationError` (status 400), the three `NotFound`
constructors are `NotFoundError` (404), `noCompletedSession` is
`ForbiddenError` (403), `alreadyRated` is `ConflictError` (400 with the
duplicate message), `created` is the 201 success exit. -/
inductive CreateResult where
  | missingFields
  | scoreOutOfRange
  | learnerNotFound
  | teacherNotFound
  | listingNotFound
  | noCompletedSession
  | alreadyRated
  | created (populated : Option PopulatedRating)
deriving DecidableEq

/-- Whether a `createRating` exit is a `ValidationError` in the spec's
taxonomy (a 400 caused by malformed input, issued before any store access). -/
def CreateResult.isValidationError : CreateResult → Bool
  | .missingFields => true
  | .scoreOutOfRange => true
  | _ => false

/-- Models `createRating` (ratingController.js lines 6–111).  Arguments mirror the
request body (`learnerID`, `teacherID`, `listingID`, `rating`), plus the
generated id and current time; returns the response and the post-call store. -/
def createRating (learnerID teacherID listingID : String) (rating : ℚ)
    (newId : String) (now : ℕ) (s : Store) : CreateResult × Store :=
  if learnerID = "" ∨ teacherID = "" ∨ listingID = "" ∨ rating = 0 then
    (.missingFields, s)
  else if rating < 1 ∨ 5 < rating then
    (.scoreOutOfRange, s)
  else
    match findUser s learnerID with
    | none => (.learnerNotFound, s)
    | some _ =>
      match findUser s teacherID with
      | none => (.teacherNotFound, s)
      | some _ =>
        match findListing s listingID with
        | none => (.listingNotFound, s)
        | some _ =>
          match findCompletedSession s learnerID teacherID listingID with
          | none => (.noCompletedSession, s)
          | some _ =>
            match findRatingByTriple s learnerID teacherID listingID with
            | some _ => (.alreadyRated, s)
            | none =>
              let newRating : Rating :=
                { id := newId, learnerID := learnerID, teacherID := teacherID
                  listingID := listingID, rating := rating, createdAt := now }
              let s' : Store := { s with ratings := s.ratings ++ [newRating] }
              (.created ((findRatingById s' newId).map (populateRating s')), s')

/-- The distinct exits of `updateRating`.  `missingId` and `scoreOutOfRange`
are `ValidationError` (400), `notFound` is `NotFoundError` (404), `updated`
is the 200 success exit carrying the response's `rating` payload. -/
inductive UpdateResult where
  | missingId
  | scoreOutOfRange
  | notFound
  | updated (id : String) (rating : ℚ)
deriving DecidableEq

/-- Whether an `updateRating` exit is a `ValidationError` in the spec's
taxonomy. -/
def UpdateResult.isValidationError : UpdateResult → Bool
  | .missingId => true
  | .scoreOutOfRange => true
  | _ => false

/-- Models `existingRating.rating = rating; existingRating.save()`: replace the score
of the first rating with the given id. -/
def setScoreFirst (rid : String) (q : ℚ) : List Rating → List Rating
  | [] => []
  | r :: rs =>
    if r.id = rid then { r with rating := q } :: rs
    else r :: setScoreFirst rid q rs

/-- Models `updateRating` (ratingController.js lines 114–167). -/
def updateRating (id : String) (rating : ℚ) (s : Store) : UpdateResult × Store :=
  if id = "" then (.missingId, s)
  else if rating = 0 ∨ rating < 1 ∨ 5 < rating then (.scoreOutOfRange, s)
  else
    match findRatingById s id with
    | none => (.notFound, s)
    | some _ => (.updated id rating, { s with ratings := setScoreFirst id rating s.ratings })

/-- The `deletedRating` snapshot returned by a successful `deleteRating`:
the deleted document's fields plus `deletedAt = new Date()`. -/
structure DeletedSnapshot where
  id : String
  learnerID : String
  teacherID : String
  listingID : String
  rating : ℚ
  deletedAt : ℕ
deriving DecidableEq

/-- The distinct exits of `deleteRating`.  `missingId` and `invalidIdFormat`
are `ValidationError` (400), `notFound` is `NotFoundError` (404), `forbidden`
is `ForbiddenError` (403), `deleted` is the 200 success exit. -/
inductive DeleteResult where
  | missingId
  | invalidIdFormat
  | notFound
  | forbidden
  | deleted (snapshot : DeletedSnapshot)
deriving DecidableEq

/-- Models `deleteRating` (ratingController.js lines 170–232).  `userId` is the
authenticated identity from middleware; `now` models `new Date()`. -/
def deleteRating (id : String) (userId : String) (now : ℕ) (s : Store) :
    DeleteResult × Store :=
  if id = "" then (.missingId, s)
  else if id.length ≠ 24 then (.invalidIdFormat, s)
  else
    match findRatingById s id with
    | none => (.notFound, s)
    | some r =>
      if r.learnerID ≠ userId then (.forbidden, s)
      else
        (.deleted { id := r.id, learnerID := r.learnerID, teacherID := r.teacherID
                    listingID := r.listingID, rating := r.rating, deletedAt := now },
         { s with ratings := s.ratings.eraseP (fun x => x.id == id) })

/-- The success payload of `getRatingsByListing`: the populated, newest-first
rating list, `totalRatings`, the thresholded `averageRating` and the `note`
string (present exactly when the threshold is not met). -/
structure ListingRatingsPayload where
  ratings : List PopulatedRating
  totalRatings : ℕ
  averageRating : Option ℚ
  note : Option String
deriving DecidableEq

/-- The distinct exits of `getRatingsByListing`: `missingId` is
`ValidationError` (400), `ok` the 200 exit. -/
inductive ListingRatingsResult where
  | missingId
  | ok (p : ListingRatingsPayload)
deriving DecidableEq

/-- Models `getRatingsByListing` (ratingController.js lines 235–277). -/
def getRatingsByListing (listingId : String) (s : Store) : ListingRatingsResult :=
  if listingId = "" then .missingId
  else
    let ratings := sortByCreatedAtDesc (s.ratings.filter (fun r => r.listingID == listingId))
    let averageRating : Option ℚ :=
      if 5 ≤ ratings.length then some (round1 (sumScores ratings / ratings.length))
      else none
    .ok { ratings := ratings.map (populateRating s)
          totalRatings := ratings.length
          averageRating := averageRating
          note := if ratings.length < 5 then
              some "At least 5 ratings are required to show average rating"
            else none }

/-- The distinct exits of `getAverageRating`: `missingId` is
`ValidationError` (400); `ok` is the 200 exit carrying `averageRating`
(`none` = JSON `null`) and `totalRatings`. -/
inductive AverageRatingResult where
  | missingId
  | ok (averageRating : Option ℚ) (totalRatings : ℕ)
deriving DecidableEq

/-- Models `getAverageRating` (ratingController.js lines 282–326). -/
def getAverageRating (listingId : String) (s : Store) : AverageRatingResult :=
  if listingId = "" then .missingId
  else
    let ratings := s.ratings.filter (fun r => r.listingID == listingId)
    if ratings.length < 5 then .ok none ratings.length
    else .ok (some (round1 (sumScores ratings / ratings.length))) ratings.length

/-- The distinct exits of `getRatingsByLearnerId`: `missingId` is
`ValidationError` (400), `learnerNotFound` is `NotFoundError` (404), `ok`
the 200 exit.  The source's 24-character id-format check is commented out
(lines 440–445), so no format validation appears here. -/
inductive LearnerRatingsResult where
  | missingId
  | learnerNotFound
  | ok (learner : User) (ratings : List Rating) (totalRatings : ℕ)
deriving DecidableEq

/-- Whether a `getRatingsByLearnerId` exit is a `ValidationError`. -/
def LearnerRatingsResult.isValidationError : LearnerRatingsResult → Bool
  | .missingId => true
  | _ => false

/-- Models `getRatingsByLearnerId` (ratingController.js lines 423–489). -/
def getRatingsByLearnerId (learnerId : String) (s : Store) : LearnerRatingsResult :=
  if learnerId = "" then .missingId
  else
    match findUser s learnerId with
    | none => .learnerNotFound
    | some learner =>
      let ratings := sortByCreatedAtDesc (s.ratings.filter (fun r => r.learnerID == learnerId))
      .ok learner ratings ratings.length

/-- One entry of the teacher-stats `recentRatings` array: id, score, the
populated learner `fullname`, the populated listing `title`, `createdAt`. -/
structure RecentRating where
  id : String
  rating : ℚ
  learner : Option String
  skill : Option String
  createdAt : ℕ
deriving DecidableEq

/-- One `recentRatings` entry built from a rating (the populated lookups). -/
def recentView (s : Store) (r : Rating) : RecentRating :=
  { id := r.id, rating := r.rating
    learner := (findUser s r.learnerID).map (fun u => u.fullname)
    skill := (findListing s r.listingID).map (fun l => l.title)
    createdAt := r.createdAt }

/-- The nonzero-ratings payload of `getAverageRatingsByTeacherId`:
`averageRating`, `totalRatings`, the `ratingDistribution` counts for scores
1–5 (`dist1`..`dist5`), `uniqueSkillsCount`, `recentRatings` and the
`statistics` block. -/
structure TeacherStatsPayload where
  averageRating : ℚ
  totalRatings : ℕ
  dist1 : ℕ
  dist2 : ℕ
  dist3 : ℕ
  dist4 : ℕ
  dist5 : ℕ
  uniqueSkillsCount : ℕ
  recentRatings : List RecentRating
  highestRating : ℚ
  lowestRating : ℚ
  ratingsAbove4 : ℕ
  ratingsBelow3 : ℕ
deriving DecidableEq

/-- The distinct exits of `getAverageRatingsByTeacherId`.  `missingId`,
`invalidIdFormat` and `notATeacher` are `ValidationError` (400),
`teacherNotFound` is `NotFoundError` (404); `noRatings` is the 200 exit for a
teacher with zero ratings (`averageRating: null`, `totalRatings: 0`,
`ratings: []`, and no `ratingDistribution`/`statistics` keys at all);
`stats` is the 200 exit with the full aggregate payload (which carries no
`ratings` key). -/
inductive TeacherStatsResult where
  | missingId
  | invalidIdFormat
  | teacherNotFound
  | notATeacher
  | noRatings (teacher : User)
  | stats (teacher : User) (p : TeacherStatsPayload)
deriving DecidableEq

/-- Whether the response is a 200 success. -/
def TeacherStatsResult.isSuccess : TeacherStatsResult → Bool
  | .noRatings _ => true
  | .stats _ _ => true
  | _ => false

/-- The `averageRating` JSON field of the response: `none` when the field is
absent (error exits), `some none` when it is present and `null`, `some (some q)`
when it is a number. -/
def TeacherStatsResult.averageField : TeacherStatsResult → Option (Option ℚ)
  | .noRatings _ => some none
  | .stats _ p => some (some p.averageRating)
  | _ => none

/-- The `totalRatings` JSON field of the response (`none` = field absent). -/
def TeacherStatsResult.totalField : TeacherStatsResult → Option ℕ
  | .noRatings _ => some 0
  | .stats _ p => some p.totalRatings
  | _ => none

/-- The `ratingDistribution` JSON field of the response, as the counts for
scores 1,2,3,4,5 (`none` = the field is absent from the response). -/
def TeacherStatsResult.distributionField :
    TeacherStatsResult → Option (ℕ × ℕ × ℕ × ℕ × ℕ)
  | .stats _ p => some (p.dist1, p.dist2, p.dist3, p.dist4, p.dist5)
  | _ => none

/-- The `statistics` JSON block of the response, as the quadruple
(`highestRating`, `lowestRating`, `ratingsAbove4`, `ratingsBelow3`);
`none` = the block is absent from the response. -/
def TeacherStatsResult.statisticsField : TeacherStatsResult → Option (ℚ × ℚ × ℕ × ℕ)
  | .stats _ p => some (p.highestRating, p.lowestRating, p.ratingsAbove4, p.ratingsBelow3)
  | _ => none

/-- Models `getAverageRatingsByTeacherId` (ratingController.js lines 522–649),
called `getTeacherRatingStats` in the specification. -/
def getAverageRatingsByTeacherId (teacherId : String) (s : Store) :
    TeacherStatsResult :=
  if teacherId = "" then .missingId
  else if teacherId.length ≠ 24 then .invalidIdFormat
  else
    match findUser s teacherId with
    | none => .teacherNotFound
    | some teacher =>
      if teacher.role ≠ "teacher" then .notATeacher
      else
        let ratings := sortByCreatedAtDesc (s.ratings.filter (fun r => r.teacherID == teacherId))
        if ratings.length = 0 then .noRatings teacher
        else
          .stats teacher
            { averageRating := round1 (sumScores ratings / ratings.length)
              totalRatings := ratings.length
              dist1 := (ratings.filter (fun r => r.rating == 1)).length
              dist2 := (ratings.filter (fun r => r.rating == 2)).length
              dist3 := (ratings.filter (fun r => r.rating == 3)).length
              dist4 := (ratings.filter (fun r => r.rating == 4)).length
              dist5 := (ratings.filter (fun r => r.rating == 5)).length
              uniqueSkillsCount := ((ratings.map (fun r => r.listingID)).dedup).length
              recentRatings := (ratings.take 5).map (recentView s)
              highestRating := listMax (ratings.map (fun r => r.rating))
              lowestRating := listMin (ratings.map (fun r => r.rating))
              ratingsAbove4 := (ratings.filter (fun r => 4 ≤ r.rating)).length
              ratingsBelow3 := (ratings.filter (fun r => r.rating ≤ 2)).length }

/-- The store invariant of the spec's data model: every persisted rating's
score lies in the closed interval [1, 5]. -/
def scoresInRange (s : Store) : Prop :=
  ∀ r ∈ s.ratings, 1 ≤ r.rating ∧ r.rating ≤ 5

instance (s : Store) : Decidable (scoresInRange s) := by
  unfold scoresInRange
  infer_instance

/-- The score 5/2, written as an explicit reduced fraction. -/
def half5 : ℚ := ⟨5, 2, by norm_num, by norm_num⟩

/-- An example learner. -/
def uLearner : User :=
  { id := "aaaaaaaaaaaaaaaaaaaaaaaa", fullname := "Alice Learner"
    email := "alice@example.com", role := "learner" }

/-- An example teacher. -/
def uTeacher : User :=
  { id := "bbbbbbbbbbbbbbbbbbbbbbbb", fullname := "Bob Teacher"
    email := "bob@example.com", role := "teacher" }

/-- An example skill listing. -/
def lsGuitar : SkillListing :=
  { id := "cccccccccccccccccccccccc", title := "Guitar Basics" }

/-- A completed session between the example learner and teacher. -/
def sessDone : Session :=
  { learnerID := "aaaaaaaaaaaaaaaaaaaaaaaa", teacherID := "bbbbbbbbbbbbbbbbbbbbbbbb"
    skillListingID := "cccccccccccccccccccccccc", status := "completed" }

/-- The empty store. -/
def emptyStore : Store := { users := [], listings := [], sessions := [], ratings := [] }

/-- A store whose listing has exactly five ratings. -/
def c1Store : Store :=
  { users := [], listings := [lsGuitar], sessions := []
    ratings :=
      [ { id := "r1", learnerID := "l1", teacherID := "bbbbbbbbbbbbbbbbbbbbbbbb"
          listingID := "cccccccccccccccccccccccc", rating := 4, createdAt := 1 }
      , { id := "r2", learnerID := "l2", teacherID := "bbbbbbbbbbbbbbbbbbbbbbbb"
          listingID := "cccccccccccccccccccccccc", rating := 4, createdAt := 2 }
      , { id := "r3", learnerID := "l3", teacherID := "bbbbbbbbbbbbbbbbbbbbbbbb"
          listingID := "cccccccccccccccccccccccc", rating := 4, createdAt := 3 }
      , { id := "r4", learnerID := "l4", teacherID := "bbbbbbbbbbbbbbbbbbbbbbbb"
          listingID := "cccccccccccccccccccccccc", rating := 4, createdAt := 4 }
      , { id := "r5", learnerID := "l5", teacherID := "bbbbbbbbbbbbbbbbbbbbbbbb"
          listingID := "cccccccccccccccccccccccc", rating := 4, createdAt := 5 } ] }

/-- A store where the example triple has a completed session and no rating
yet: `createRating` can succeed against it. -/
def c2Store : Store :=
  { users := [uLearner, uTeacher], listings := [lsGuitar]
    sessions := [sessDone], ratings := [] }

/-- A store with both users and the listing but no session at all. -/
def c3Store : Store :=
  { users := [uLearner, uTeacher], listings := [lsGuitar]
    sessions := [], ratings := [] }

/-- A store holding one rating with a canonical 24-character id, owned by the
example learner. -/
def c5Store : Store :=
  { users := [uLearner, uTeacher], listings := [lsGuitar], sessions := [sessDone]
    ratings :=
      [ { id := "dddddddddddddddddddddddd", learnerID := "aaaaaaaaaaaaaaaaaaaaaaaa"
          teacherID := "bbbbbbbbbbbbbbbbbbbbbbbb", listingID := "cccccccccccccccccccccccc"
          rating := 4, createdAt := 10 } ] }

/-- A store where the example teacher's ratings carry the scores
[5, 5, 4, 3, 5] (newest first by `createdAt` 5,4,3,2,1). -/
def c6Store : Store :=
  { users := [uTeacher], listings := [lsGuitar], sessions := []
    ratings :=
      [ { id := "s1", learnerID := "l1", teacherID := "bbbbbbbbbbbbbbbbbbbbbbbb"
          listingID := "cccccccccccccccccccccccc", rating := 5, createdAt := 5 }
      , { id := "s2", learnerID := "l2", teacherID := "bbbbbbbbbbbbbbbbbbbbbbbb"
          listingID := "cccccccccccccccccccccccc", rating := 5, createdAt := 4 }
      , { id := "s3", learnerID := "l3", teacherID := "bbbbbbbbbbbbbbbbbbbbbbbb"
          listingID := "cccccccccccccccccccccccc", rating := 4, createdAt := 3 }
      , { id := "s4", learnerID := "l4", teacherID := "bbbbbbbbbbbbbbbbbbbbbbbb"
          listingID := "cccccccccccccccccccccccc", rating := 3, createdAt := 2 }
      , { id := "s5", learnerID := "l5", teacherID := "bbbbbbbbbbbbbbbbbbbbbbbb"
          listingID := "cccccccccccccccccccccccc", rating := 5, createdAt := 1 } ] }

/-- A store whose teacher has received no ratings. -/
def c7Store : Store :=
  { users := [uTeacher], listings := [lsGuitar], sessions := [], ratings := [] }

/-- A store containing a user whose identifier is only 3 characters long. -/
def c8Store : Store :=
  { users := [{ id := "abc", fullname := "Shorty", email := "s@example.com", role := "learner" }]
    listings := [], sessions := [], ratings := [] }

/-- A store where the example triple has a completed session, a rating on an
unrelated triple, and no rating on the example triple itself. -/
def c9Store : Store :=
  { users := [uLearner, uTeacher], listings := [lsGuitar], sessions := [sessDone]
    ratings :=
      [ { id := "eeeeeeeeeeeeeeeeeeeeeeee", learnerID := "zz", teacherID := "yy"
          listingID := "xx", rating := 2, createdAt := 1 } ] }

/-- A store where the example triple already has a rating but no completed
session: used to show the session gate fires before the duplicate gate. -/
def c10Store : Store :=
  { users := [uLearner, uTeacher], listings := [lsGuitar], sessions := []
    ratings :=
      [ { id := "ffffffffffffffffffffffff", learnerID := "aaaaaaaaaaaaaaaaaaaaaaaa"
          teacherID := "bbbbbbbbbbbbbbbbbbbbbbbb", listingID := "cccccccccccccccccccccccc"
          rating := 4, createdAt := 3 } ] }

theorem sortByCreatedAtDesc_perm (l : List Rating) :
    List.Perm (sortByCreatedAtDesc l) l :=
  List.perm_insertionSort _ l

theorem sortByCreatedAtDesc_length (l : List Rating) :
    (sortByCreatedAtDesc l).length = l.length :=
  (sortByCreatedAtDesc_perm l).length_eq

theorem sumScores_sortByCreatedAtDesc (l : List Rating) :
    sumScores (sortByCreatedAtDesc l) = sumScores l :=
  ((sortByCreatedAtDesc_perm l).map _).sum_eq

theorem filter_sortByCreatedAtDesc_length (p : Rating → Bool) (l : List Rating) :
    ((sortByCreatedAtDesc l).filter p).length = (l.filter p).length :=
  ((sortByCreatedAtDesc_perm l).filter p).length_eq

theorem mem_map_sortByCreatedAtDesc (l : List Rating) (f : Rating → ℚ) (x : ℚ) :
    x ∈ (sortByCreatedAtDesc l).map f ↔ x ∈ l.map f :=
  ((sortByCreatedAtDesc_perm l).map f).mem_iff

theorem foldl_max_spec (a : ℚ) (t : List ℚ) :
    t.foldl max a ∈ a :: t ∧ ∀ x ∈ a :: t, x ≤ t.foldl max a := by
  induction t generalizing a with
  | nil => simp
  | cons b t ih =>
    obtain ⟨ihm, ihle⟩ := ih (max a b)
    rw [List.foldl_cons]
    constructor
    · rcases List.mem_cons.mp ihm with h | h
      · rcases max_choice a b with hc | hc
        · exact List.mem_cons.mpr (Or.inl (h.trans hc))
        · exact List.mem_cons.mpr (Or.inr (List.mem_cons.mpr (Or.inl (h.trans hc))))
      · exact List.mem_cons.mpr (Or.inr (List.mem_cons.mpr (Or.inr h)))
    · intro x hx
      rcases List.mem_cons.mp hx with rfl | hx
      · exact le_trans (le_max_left x b) (ihle _ (List.mem_cons_self _ _))
      rcases List.mem_cons.mp hx with rfl | hx
      · exact le_trans (le_max_right a x) (ihle _ (List.mem_cons_self _ _))
      · exact ihle x (List.mem_cons.mpr (Or.inr hx))

theorem foldl_min_spec (a : ℚ) (t : List ℚ) :
    t.foldl min a ∈ a :: t ∧ ∀ x ∈ a :: t, t.foldl min a ≤ x := by
  induction t generalizing a with
  | nil => simp
  | cons b t ih =>
    obtain ⟨ihm, ihle⟩ := ih (min a b)
    rw [List.foldl_cons]
    constructor
    · rcases List.mem_cons.mp ihm with h | h
      · rcases min_choice a b with hc | hc
        · exact List.mem_cons.mpr (Or.inl (h.trans hc))
        · exact List.mem_cons.mpr (Or.inr (List.mem_cons.mpr (Or.inl (h.trans hc))))
      · exact List.mem_cons.mpr (Or.inr (List.mem_cons.mpr (Or.inr h)))
    · intro x hx
      rcases List.mem_cons.mp hx with rfl | hx
      · exact le_trans (ihle _ (List.mem_cons_self _ _)) (min_le_left x b)
      rcases List.mem_cons.mp hx with rfl | hx
      · exact le_trans (ihle _ (List.mem_cons_self _ _)) (min_le_right a x)
      · exact ihle x (List.mem_cons.mpr (Or.inr hx))

theorem listMax_spec (l : List ℚ) (h : l ≠ []) :
    listMax l ∈ l ∧ ∀ x ∈ l, x ≤ listMax l := by
  cases l with
  | nil => exact absurd rfl h
  | cons a t => exact foldl_max_spec a t

theorem listMin_spec (l : List ℚ) (h : l ≠ []) :
    listMin l ∈ l ∧ ∀ x ∈ l, listMin l ≤ x := by
  cases l with
  | nil => exact absurd rfl h
  | cons a t => exact foldl_min_spec a t

theorem find?_id_eq_none_of_not_mem (rid : String) (l : List Rating)
    (h : rid ∉ l.map (fun r => r.id)) :
    l.find? (fun r => r.id == rid) = none := by
  rw [List.find?_eq_none]
  intro x hx hxe
  exact h (List.mem_map.mpr ⟨x, hx, by simpa using hxe⟩)

theorem find?_eraseP_id (rid : String) (l : List Rating)
    (h : (l.map (fun r => r.id)).Nodup) :
    (l.eraseP (fun x => x.id == rid)).find? (fun r => r.id == rid) = none := by
  induction l with
  | nil => rfl
  | cons r rs ih =>
    rw [List.map_cons, List.nodup_cons] at h
    by_cases hr : r.id = rid
    · rw [List.eraseP_cons_of_pos (by simp [hr])]
      exact find?_id_eq_none_of_not_mem rid rs (hr ▸ h.1)
    · rw [List.eraseP_cons_of_neg (by simp [hr])]
      rw [List.find?_cons_of_neg _ (by simp [hr])]
      exact ih h.2

theorem mem_setScoreFirst (rid : String) (q : ℚ) (l : List Rating) (r : Rating)
    (hr : r ∈ setScoreFirst rid q l) : r ∈ l ∨ r.rating = q := by
  induction l with
  | nil => simp [setScoreFirst] at hr
  | cons x xs ih =>
    simp only [setScoreFirst] at hr
    by_cases hx : x.id = rid
    · rw [if_pos hx] at hr
      rcases List.mem_cons.mp hr with rfl | hmem
      · exact Or.inr rfl
      · exact Or.inl (List.mem_cons.mpr (Or.inr hmem))
    · rw [if_neg hx] at hr
      rcases List.mem_cons.mp hr with rfl | hmem
      · exact Or.inl (List.mem_cons_self _ _)
      · rcases ih hmem with h | h
        · exact Or.inl (List.mem_cons.mpr (Or.inr h))
        · exact Or.inr h

/-- Claim C1: for every listing, `getAverageRating` and `getRatingsByListing`
(the spec's `listRatingsForListing`) return `averageScore` `null` when the
listing has fewer than 5 ratings, and when it has 5 or more ratings they
return the arithmetic mean of the scores rounded to 1 decimal place. -/
theorem C1_listing_average_threshold (s : Store) (listingId : String)
    (h : listingId ≠ "") :
    (getAverageRating listingId s =
      .ok (if (s.ratings.filter (fun r => r.listingID == listingId)).length < 5 then none
           else some (round1 (avgScore (s.ratings.filter (fun r => r.listingID == listingId)))))
        (s.ratings.filter (fun r => r.listingID == listingId)).length)
  ∧ ∃ p, getRatingsByListing listingId s = .ok p
      ∧ p.totalRatings = (s.ratings.filter (fun r => r.listingID == listingId)).length
      ∧ p.averageRating =
          (if (s.ratings.filter (fun r => r.listingID == listingId)).length < 5 then none
           else some (round1 (avgScore (s.ratings.filter (fun r => r.listingID == listingId))))) := by
  constructor
  · simp only [getAverageRating, h, if_false, reduceIte]
    rcases Nat.lt_or_ge (s.ratings.filter (fun r => r.listingID == listingId)).length 5 with h5 | h5
    · rw [if_pos h5, if_pos h5]
    · rw [if_neg (Nat.not_lt.mpr h5), if_neg (Nat.not_lt.mpr h5)]
      rfl
  · simp only [getRatingsByListing, h, if_false, reduceIte]
    refine ⟨_, rfl, ?_, ?_⟩
    · exact sortByCreatedAtDesc_length _
    · simp only [sortByCreatedAtDesc_length, sumScores_sortByCreatedAtDesc]
      rcases Nat.lt_or_ge (s.ratings.filter (fun r => r.listingID == listingId)).length 5 with h5 | h5
      · rw [if_neg (by omega), if_pos h5]
      · rw [if_pos h5, if_neg (Nat.not_lt.mpr h5)]
        rfl

/-- Witness for C1: on a concrete store whose listing has exactly five
ratings, `getAverageRating` returns the rounded mean and the count 5. -/
theorem C1_listing_average_threshold_witness :
    getAverageRating "cccccccccccccccccccccccc" c1Store =
      .ok (some (round1 (avgScore (c1Store.ratings.filter
            (fun r => r.listingID == "cccccccccccccccccccccccc")))))
        (c1Store.ratings.filter (fun r => r.listingID == "cccccccccccccccccccccccc")).length := by
  have h := (C1_listing_average_threshold c1Store "cccccccccccccccccccccccc" (by decide)).1
  rwa [if_neg (by decide)] at h

/-- Counterexample to claim C2: the score 5/2 lies in [1, 5] but is not an
integer, yet `createRating` accepts it and persists a rating with score 5/2,
and `updateRating` likewise accepts it and persists it — both controllers
only range-check the score (`rating < 1 || rating > 5`) and never test
integrality. -/
theorem C2_score_integer_counterexample :
    (1 ≤ half5 ∧ half5 ≤ 5 ∧ ¬ ∃ n : ℤ, (n : ℚ) = half5)
  ∧ (∃ pr, (createRating "aaaaaaaaaaaaaaaaaaaaaaaa" "bbbbbbbbbbbbbbbbbbbbbbbb"
        "cccccccccccccccccccccccc" half5 "gggggggggggggggggggggggg" 3 c2Store).1 = .created pr)
  ∧ (⟨"gggggggggggggggggggggggg", "aaaaaaaaaaaaaaaaaaaaaaaa", "bbbbbbbbbbbbbbbbbbbbbbbb",
        "cccccccccccccccccccccccc", half5, 3⟩ : Rating) ∈
      ((createRating "aaaaaaaaaaaaaaaaaaaaaaaa" "bbbbbbbbbbbbbbbbbbbbbbbb"
        "cccccccccccccccccccccccc" half5 "gggggggggggggggggggggggg" 3 c2Store).2).ratings
  ∧ (updateRating "dddddddddddddddddddddddd" half5 c5Store).1 =
      .updated "dddddddddddddddddddddddd" half5
  ∧ (⟨"dddddddddddddddddddddddd", "aaaaaaaaaaaaaaaaaaaaaaaa", "bbbbbbbbbbbbbbbbbbbbbbbb",
        "cccccccccccccccccccccccc", half5, 10⟩ : Rating) ∈
      ((updateRating "dddddddddddddddddddddddd" half5 c5Store).2).ratings := by
  refine ⟨⟨by decide, by decide, ?_⟩, ⟨_, rfl⟩, by decide, by decide, by decide⟩
  rintro ⟨n, hn⟩
  have hd := congrArg Rat.den hn
  rw [Rat.den_intCast] at hd
  exact absurd hd (by decide)

/-- Claim C2 as amended: the controllers range-check but never
integrality-check the score, so the provable invariant is that every
persisted rating's score lies in [1, 5] (integer or not): `createRating` and
`updateRating` preserve `scoresInRange` for every input. -/
theorem C2_score_range_invariant (s : Store) (hs : scoresInRange s)
    (learnerID teacherID listingID : String) (q : ℚ) (newId : String) (now : ℕ)
    (rid : String) :
    scoresInRange (createRating learnerID teacherID listingID q newId now s).2
  ∧ scoresInRange (updateRating rid q s).2 := by
  constructor
  · unfold createRating
    by_cases hm : learnerID = "" ∨ teacherID = "" ∨ listingID = "" ∨ q = 0
    · rw [if_pos hm]; exact hs
    · rw [if_neg hm]
      by_cases hr : q < 1 ∨ 5 < q
      · rw [if_pos hr]; exact hs
      · rw [if_neg hr]
        push_neg at hr
        cases hfl : findUser s learnerID with
        | none => exact hs
        | some l =>
          cases hft : findUser s teacherID with
          | none => exact hs
          | some t =>
            cases hfli : findListing s listingID with
            | none => exact hs
            | some li =>
              cases hsess : findCompletedSession s learnerID teacherID listingID with
              | none => exact hs
              | some c =>
                cases hdup : findRatingByTriple s learnerID teacherID listingID with
                | some r0 => exact hs
                | none =>
                  intro r hrmem
                  simp only [List.mem_append, List.mem_singleton] at hrmem
                  rcases hrmem with hrmem | rfl
                  · exact hs r hrmem
                  · exact ⟨hr.1, hr.2⟩
  · unfold updateRating
    by_cases h0 : rid = ""
    · rw [if_pos h0]; exact hs
    · rw [if_neg h0]
      by_cases hq : q = 0 ∨ q < 1 ∨ 5 < q
      · rw [if_pos hq]; exact hs
      · rw [if_neg hq]
        push_neg at hq
        cases hfind : findRatingById s rid with
        | none => exact hs
        | some r0 =>
          intro r hrmem
          rcases mem_setScoreFirst rid q s.ratings r hrmem with h | h
          · exact hs r h
          · rw [h]
            exact ⟨hq.2.1, hq.2.2⟩

/-- Witness for the amended C2: the invariant holds after a concrete
successful `createRating` and after a concrete successful `updateRating`. -/
theorem C2_score_range_invariant_witness :
    scoresInRange (createRating "aaaaaaaaaaaaaaaaaaaaaaaa" "bbbbbbbbbbbbbbbbbbbbbbbb"
        "cccccccccccccccccccccccc" 3 "gggggggggggggggggggggggg" 4 c2Store).2
  ∧ scoresInRange (updateRating "dddddddddddddddddddddddd" 2 c5Store).2 := by
  constructor
  · exact (C2_score_range_invariant c2Store (by decide) "aaaaaaaaaaaaaaaaaaaaaaaa"
      "bbbbbbbbbbbbbbbbbbbbbbbb" "cccccccccccccccccccccccc" 3 "gggggggggggggggggggggggg" 4 "x").1
  · exact (C2_score_range_invariant c5Store (by decide) "" "" "" 2 "" 0
      "dddddddddddddddddddddddd").2

/-- Claim C3: for every triple whose referenced users and listing exist (and
an otherwise valid request), `createRating` fails with `ForbiddenError` (the
403 exit) when no completed session with that triple exists, and fails with
`ConflictError` (the duplicate-rating 400 exit) when a completed session
exists and a rating for the triple already does; in both cases the store is
unchanged, so no rating is persisted. -/
theorem C3_forbidden_and_conflict (s : Store)
    (learnerID teacherID listingID : String) (q : ℚ) (newId : String) (now : ℕ)
    (learner teacher : User) (listing : SkillListing)
    (hl : learnerID ≠ "") (ht : teacherID ≠ "") (hli : listingID ≠ "")
    (h1 : 1 ≤ q) (h5 : q ≤ 5)
    (hfl : findUser s learnerID = some learner)
    (hft : findUser s teacherID = some teacher)
    (hfli : findListing s listingID = some listing) :
    (findCompletedSession s learnerID teacherID listingID = none →
      createRating learnerID teacherID listingID q newId now s = (.noCompletedSession, s))
  ∧ (∀ sess r, findCompletedSession s learnerID teacherID listingID = some sess →
      findRatingByTriple s learnerID teacherID listingID = some r →
      createRating learnerID teacherID listingID q newId now s = (.alreadyRated, s)) := by
  have hq0 : q ≠ 0 := by
    intro h
    rw [h] at h1
    norm_num at h1
  have hm : ¬(learnerID = "" ∨ teacherID = "" ∨ listingID = "" ∨ q = 0) := by
    push_neg
    exact ⟨hl, ht, hli, hq0⟩
  have hr : ¬(q < 1 ∨ 5 < q) := by
    push_neg
    exact ⟨h1, h5⟩
  constructor
  · intro hsess
    simp only [createRating, if_neg hm, if_neg hr, hfl, hft, hfli, hsess]
  · intro sess r hsess hdup
    simp only [createRating, if_neg hm, if_neg hr, hfl, hft, hfli, hsess, hdup]

/-- Witness for C3: against a concrete store with both users and the listing
but no session, a valid `createRating` request is rejected with the 403
session gate and the store is unchanged. -/
theorem C3_forbidden_and_conflict_witness :
    createRating "aaaaaaaaaaaaaaaaaaaaaaaa" "bbbbbbbbbbbbbbbbbbbbbbbb"
      "cccccccccccccccccccccccc" 3 "gggggggggggggggggggggggg" 9 c3Store =
      (.noCompletedSession, c3Store) :=
  (C3_forbidden_and_conflict c3Store "aaaaaaaaaaaaaaaaaaaaaaaa" "bbbbbbbbbbbbbbbbbbbbbbbb"
    "cccccccccccccccccccccccc" 3 "gggggggggggggggggggggggg" 9 uLearner uTeacher lsGuitar
    (by decide) (by decide) (by decide) (by decide) (by decide)
    (by decide) (by decide) (by decide)).1 (by decide)

/-- Claim C4: for every score outside [1, 5], `createRating` and
`updateRating` fail with a `ValidationError` (a 400 validation exit), leave
the store unchanged, and never consult the store — the returned result is
identical over any two stores. -/
theorem C4_out_of_range_score_validation (q : ℚ) (hq : q < 1 ∨ 5 < q) :
    (∀ learnerID teacherID listingID newId now s,
       (createRating learnerID teacherID listingID q newId now s).1.isValidationError = true
       ∧ (createRating learnerID teacherID listingID q newId now s).2 = s)
  ∧ (∀ learnerID teacherID listingID newId now s₁ s₂,
       (createRating learnerID teacherID listingID q newId now s₁).1 =
       (createRating learnerID teacherID listingID q newId now s₂).1)
  ∧ (∀ id s, (updateRating id q s).1.isValidationError = true
       ∧ (updateRating id q s).2 = s)
  ∧ (∀ id s₁ s₂, (updateRating id q s₁).1 = (updateRating id q s₂).1) := by
  refine ⟨?_, ?_, ?_, ?_⟩
  · intro learnerID teacherID listingID newId now s
    unfold createRating
    by_cases hm : learnerID = "" ∨ teacherID = "" ∨ listingID = "" ∨ q = 0
    · rw [if_pos hm]
      exact ⟨rfl, rfl⟩
    · rw [if_neg hm, if_pos hq]
      exact ⟨rfl, rfl⟩
  · intro learnerID teacherID listingID newId now s₁ s₂
    unfold createRating
    by_cases hm : learnerID = "" ∨ teacherID = "" ∨ listingID = "" ∨ q = 0
    · rw [if_pos hm, if_pos hm]
    · rw [if_neg hm, if_neg hm, if_pos hq, if_pos hq]
  · intro id s
    unfold updateRating
    by_cases h0 : id = ""
    · rw [if_pos h0]
      exact ⟨rfl, rfl⟩
    · rw [if_neg h0, if_pos (Or.inr hq)]
      exact ⟨rfl, rfl⟩
  · intro id s₁ s₂
    unfold updateRating
    by_cases h0 : id = ""
    · rw [if_pos h0, if_pos h0]
    · rw [if_neg h0, if_neg h0, if_pos (Or.inr hq), if_pos (Or.inr hq)]

/-- Witness for C4: score 7 is rejected by `createRating` as a validation
error against the empty store, which stays unchanged. -/
theorem C4_out_of_range_score_validation_witness :
    (createRating "a" "b" "c" 7 "n" 0 emptyStore).1.isValidationError = true
    ∧ (createRating "a" "b" "c" 7 "n" 0 emptyStore).2 = emptyStore :=
  (C4_out_of_range_score_validation 7 (by decide)).1 "a" "b" "c" "n" 0 emptyStore

/-- Claim C5: for every existing rating reached through a well-formed
24-character id, `deleteRating` succeeds iff the requesting user equals the
rating's learner; when they differ it fails with `ForbiddenError` and the
store is unchanged, and on success it returns a snapshot of the deleted
rating's fields with `deletedAt` = the deletion time and erases the rating. -/
theorem C5_delete_ownership (s : Store) (rid userId : String) (now : ℕ) (r : Rating)
    (h24 : rid.length = 24) (hfind : findRatingById s rid = some r) :
    (userId ≠ r.learnerID → deleteRating rid userId now s = (.forbidden, s))
  ∧ (userId = r.learnerID → deleteRating rid userId now s =
      (.deleted { id := r.id, learnerID := r.learnerID, teacherID := r.teacherID
                  listingID := r.listingID, rating := r.rating, deletedAt := now },
       { s with ratings := s.ratings.eraseP (fun x => x.id == rid) })) := by
  have hne : rid ≠ "" := by
    intro h
    rw [h] at h24
    simp at h24
  constructor
  · intro hneq
    have hneq' : r.learnerID ≠ userId := Ne.symm hneq
    simp only [deleteRating, hne, h24, hfind, if_false, reduceIte]
    rw [if_neg (by norm_num : ¬ (24 : ℕ) ≠ 24), if_pos hneq']
  · intro heq
    have heq' : ¬ r.learnerID ≠ userId := fun hh => hh heq.symm
    simp only [deleteRating, hne, h24, hfind, if_false, reduceIte]
    rw [if_neg (by norm_num : ¬ (24 : ℕ) ≠ 24), if_neg heq']

/-- Witness for C5: the owning learner deletes the concrete rating and gets
back its snapshot stamped with the deletion time. -/
theorem C5_delete_ownership_witness :
    deleteRating "dddddddddddddddddddddddd" "aaaaaaaaaaaaaaaaaaaaaaaa" 7 c5Store =
      (.deleted { id := "dddddddddddddddddddddddd", learnerID := "aaaaaaaaaaaaaaaaaaaaaaaa"
                  teacherID := "bbbbbbbbbbbbbbbbbbbbbbbb", listingID := "cccccccccccccccccccccccc"
                  rating := 4, deletedAt := 7 },
       { c5Store with
          ratings := c5Store.ratings.eraseP (fun x => x.id == "dddddddddddddddddddddddd") }) :=
  (C5_delete_ownership c5Store "dddddddddddddddddddddddd" "aaaaaaaaaaaaaaaaaaaaaaaa" 7
    ⟨"dddddddddddddddddddddddd", "aaaaaaaaaaaaaaaaaaaaaaaa", "bbbbbbbbbbbbbbbbbbbbbbbb",
     "cccccccccccccccccccccccc", 4, 10⟩ (by decide) (by decide)).2 rfl

/-- Claim C6: for a teacher with at least one rating,
`getAverageRatingsByTeacherId` (the spec's `getTeacherRatingStats`) returns
the mean score rounded to 1 decimal, the per-score count distribution over
1–5, the count of scores ≥ 4, the count of scores ≤ 2, and the maximum and
minimum scores among the teacher's ratings; instantiated at the scenario
[5,5,4,3,5] (see the witness) this gives average 4.4, distribution
{1:0, 2:0, 3:1, 4:1, 5:3}, 4 scores ≥ 4 and 0 scores ≤ 2. -/
theorem C6_teacher_stats (s : Store) (teacherId : String) (teacher : User)
    (h1 : teacherId ≠ "") (h2 : teacherId.length = 24)
    (h3 : findUser s teacherId = some teacher) (h4 : teacher.role = "teacher")
    (h5 : s.ratings.filter (fun r => r.teacherID == teacherId) ≠ []) :
    ∃ p, getAverageRatingsByTeacherId teacherId s = .stats teacher p
      ∧ p.averageRating =
          round1 (avgScore (s.ratings.filter (fun r => r.teacherID == teacherId)))
      ∧ p.totalRatings = (s.ratings.filter (fun r => r.teacherID == teacherId)).length
      ∧ p.dist1 = ((s.ratings.filter (fun r => r.teacherID == teacherId)).filter
          (fun r => r.rating == 1)).length
      ∧ p.dist2 = ((s.ratings.filter (fun r => r.teacherID == teacherId)).filter
          (fun r => r.rating == 2)).length
      ∧ p.dist3 = ((s.ratings.filter (fun r => r.teacherID == teacherId)).filter
          (fun r => r.rating == 3)).length
      ∧ p.dist4 = ((s.ratings.filter (fun r => r.teacherID == teacherId)).filter
          (fun r => r.rating == 4)).length
      ∧ p.dist5 = ((s.ratings.filter (fun r => r.teacherID == teacherId)).filter
          (fun r => r.rating == 5)).length
      ∧ p.ratingsAbove4 = ((s.ratings.filter (fun r => r.teacherID == teacherId)).filter
          (fun r => 4 ≤ r.rating)).length
      ∧ p.ratingsBelow3 = ((s.ratings.filter (fun r => r.teacherID == teacherId)).filter
          (fun r => r.rating ≤ 2)).length
      ∧ p.highestRating ∈
          (s.ratings.filter (fun r => r.teacherID == teacherId)).map (fun r => r.rating)
      ∧ (∀ x ∈ (s.ratings.filter (fun r => r.teacherID == teacherId)).map (fun r => r.rating),
          x ≤ p.highestRating)
      ∧ p.lowestRating ∈
          (s.ratings.filter (fun r => r.teacherID == teacherId)).map (fun r => r.rating)
      ∧ (∀ x ∈ (s.ratings.filter (fun r => r.teacherID == teacherId)).map (fun r => r.rating),
          p.lowestRating ≤ x) := by
  have hlen0 : ¬ (sortByCreatedAtDesc
      (s.ratings.filter (fun r => r.teacherID == teacherId))).length = 0 := by
    rw [sortByCreatedAtDesc_length]
    intro hh
    exact h5 (List.length_eq_zero.mp hh)
  have h4' : ¬ teacher.role ≠ "teacher" := fun hh => hh h4
  have hmapne : ¬ (sortByCreatedAtDesc
      (s.ratings.filter (fun r => r.teacherID == teacherId))).map (fun r => r.rating) = [] := by
    intro hh
    rw [List.map_eq_nil_iff] at hh
    exact hlen0 (by rw [hh]; rfl)
  obtain ⟨hmaxm, hmaxb⟩ := listMax_spec _ hmapne
  obtain ⟨hminm, hminb⟩ := listMin_spec _ hmapne
  simp only [getAverageRatingsByTeacherId, h1, h2, h3, if_false, reduceIte]
  rw [if_neg (by norm_num : ¬ (24 : ℕ) ≠ 24), if_neg h4', if_neg hlen0]
  refine ⟨_, rfl, ?_, ?_, ?_, ?_, ?_, ?_, ?_, ?_, ?_, ?_, ?_, ?_, ?_⟩
  · rw [sumScores_sortByCreatedAtDesc, sortByCreatedAtDesc_length]
    rfl
  · exact sortByCreatedAtDesc_length _
  · exact filter_sortByCreatedAtDesc_length _ _
  · exact filter_sortByCreatedAtDesc_length _ _
  · exact filter_sortByCreatedAtDesc_length _ _
  · exact filter_sortByCreatedAtDesc_length _ _
  · exact filter_sortByCreatedAtDesc_length _ _
  · exact filter_sortByCreatedAtDesc_length _ _
  · exact filter_sortByCreatedAtDesc_length _ _
  · exact (mem_map_sortByCreatedAtDesc _ _ _).mp hmaxm
  · intro x hx
    exact hmaxb x ((mem_map_sortByCreatedAtDesc _ _ _).mpr hx)
  · exact (mem_map_sortByCreatedAtDesc _ _ _).mp hminm
  · intro x hx
    exact hminb x ((mem_map_sortByCreatedAtDesc _ _ _).mpr hx)

/-- Witness for C6, the spec's scenario: the concrete teacher whose scores
are [5,5,4,3,5] gets average 22/5 = 4.4, distribution (0,0,1,1,3), total 5,
and statistics (highest 5, lowest 3, four scores ≥ 4, zero scores ≤ 2). -/
theorem C6_teacher_stats_witness :
    (getAverageRatingsByTeacherId "bbbbbbbbbbbbbbbbbbbbbbbb" c6Store).averageField =
      some (some (22 / 5))
  ∧ (getAverageRatingsByTeacherId "bbbbbbbbbbbbbbbbbbbbbbbb" c6Store).distributionField =
      some (0, 0, 1, 1, 3)
  ∧ (getAverageRatingsByTeacherId "bbbbbbbbbbbbbbbbbbbbbbbb" c6Store).totalField = some 5
  ∧ (getAverageRatingsByTeacherId "bbbbbbbbbbbbbbbbbbbbbbbb" c6Store).statisticsField =
      some (5, 3, 4, 0) := by
  obtain ⟨p, hp, hav, htot, hd1, hd2, hd3, hd4, hd5, hab, hbe, hxm, hxb, hnm, hnb⟩ :=
    C6_teacher_stats c6Store "bbbbbbbbbbbbbbbbbbbbbbbb" uTeacher (by decide) (by decide)
      (by decide) (by decide) (by decide)
  have hfil : c6Store.ratings.filter (fun r => r.teacherID == "bbbbbbbbbbbbbbbbbbbbbbbb") =
      c6Store.ratings := by decide
  rw [hfil] at hav htot hd1 hd2 hd3 hd4 hd5 hab hbe hxm hxb hnm hnb
  have hmap : c6Store.ratings.map (fun r => r.rating) = [5, 5, 4, 3, 5] := by decide
  rw [hmap] at hxm hxb hnm hnb
  have hb5 : (5 : ℚ) ≤ p.highestRating := hxb 5 (by simp)
  have hl3 : p.lowestRating ≤ 3 := hnb 3 (by simp)
  have hhigh : p.highestRating = 5 := by
    simp only [List.mem_cons, List.not_mem_nil, or_false] at hxm
    rcases hxm with h | h | h | h | h
    · exact h
    · exact h
    · rw [h] at hb5; norm_num at hb5
    · rw [h] at hb5; norm_num at hb5
    · exact h
  have hlow : p.lowestRating = 3 := by
    simp only [List.mem_cons, List.not_mem_nil, or_false] at hnm
    rcases hnm with h | h | h | h | h
    · rw [h] at hl3; norm_num at hl3
    · rw [h] at hl3; norm_num at hl3
    · rw [h] at hl3; norm_num at hl3
    · exact h
    · rw [h] at hl3; norm_num at hl3
  have havg : p.averageRating = 22 / 5 := by
    rw [hav]
    norm_num [c6Store, avgScore, sumScores, round1, round_eq]
  have habv : p.ratingsAbove4 = 4 := by rw [hab]; decide
  have hblw : p.ratingsBelow3 = 0 := by rw [hbe]; decide
  have h1' : p.dist1 = 0 := by rw [hd1]; decide
  have h2' : p.dist2 = 0 := by rw [hd2]; decide
  have h3' : p.dist3 = 1 := by rw [hd3]; decide
  have h4' : p.dist4 = 1 := by rw [hd4]; decide
  have h5' : p.dist5 = 3 := by rw [hd5]; decide
  have ht' : p.totalRatings = 5 := by rw [htot]; decide
  rw [hp]
  simp only [TeacherStatsResult.averageField, TeacherStatsResult.distributionField,
    TeacherStatsResult.totalField, TeacherStatsResult.statisticsField]
  rw [havg, h1', h2', h3', h4', h5', ht', hhigh, hlow, habv, hblw]
  exact ⟨rfl, rfl, rfl, rfl⟩

/-- Counterexample to claim C7: for a concrete existing teacher with zero
ratings the handler does succeed with `totalRatings` 0 and a `null`
`averageRating`, but it does NOT return an empty score distribution — the
zero-ratings exit omits the `ratingDistribution` field entirely, so the
claim's conjunction fails at this input. -/
theorem C7_zero_ratings_counterexample :
    ¬ ((getAverageRatingsByTeacherId "bbbbbbbbbbbbbbbbbbbbbbbb" c7Store).isSuccess = true
       ∧ (getAverageRatingsByTeacherId "bbbbbbbbbbbbbbbbbbbbbbbb" c7Store).totalField = some 0
       ∧ (getAverageRatingsByTeacherId "bbbbbbbbbbbbbbbbbbbbbbbb" c7Store).averageField =
           some none
       ∧ (getAverageRatingsByTeacherId "bbbbbbbbbbbbbbbbbbbbbbbb" c7Store).distributionField =
           some (0, 0, 0, 0, 0)) := by
  decide

/-- Claim C7 as amended: for every existing user with role `teacher` and zero
ratings, `getAverageRatingsByTeacherId` succeeds (it is not an error) with
`totalRatings` 0 and `averageRating` `null`, and the response carries no
`ratingDistribution` field at all (rather than a present-but-empty
distribution). -/
theorem C7_zero_ratings_report (s : Store) (teacherId : String) (teacher : User)
    (h1 : teacherId ≠ "") (h2 : teacherId.length = 24)
    (h3 : findUser s teacherId = some teacher) (h4 : teacher.role = "teacher")
    (h5 : s.ratings.filter (fun r => r.teacherID == teacherId) = []) :
    getAverageRatingsByTeacherId teacherId s = .noRatings teacher
  ∧ (getAverageRatingsByTeacherId teacherId s).isSuccess = true
  ∧ (getAverageRatingsByTeacherId teacherId s).averageField = some none
  ∧ (getAverageRatingsByTeacherId teacherId s).totalField = some 0
  ∧ (getAverageRatingsByTeacherId teacherId s).distributionField = none := by
  have h4' : ¬ teacher.role ≠ "teacher" := fun hh => hh h4
  have hlen0 : (sortByCreatedAtDesc
      (s.ratings.filter (fun r => r.teacherID == teacherId))).length = 0 := by
    rw [sortByCreatedAtDesc_length, h5]
    rfl
  have hres : getAverageRatingsByTeacherId teacherId s = .noRatings teacher := by
    simp only [getAverageRatingsByTeacherId, h1, h2, h3, if_false, reduceIte]
    rw [if_neg (by norm_num : ¬ (24 : ℕ) ≠ 24), if_neg h4', if_pos hlen0]
  rw [hres]
  exact ⟨rfl, rfl, rfl, rfl, rfl⟩

/-- Witness for the amended C7: the concrete zero-rating teacher yields the
`noRatings` exit with `averageRating` `null`, `totalRatings` 0 and no
distribution field. -/
theorem C7_zero_ratings_report_witness :
    getAverageRatingsByTeacherId "bbbbbbbbbbbbbbbbbbbbbbbb" c7Store = .noRatings uTeacher
  ∧ (getAverageRatingsByTeacherId "bbbbbbbbbbbbbbbbbbbbbbbb" c7Store).isSuccess = true
  ∧ (getAverageRatingsByTeacherId "bbbbbbbbbbbbbbbbbbbbbbbb" c7Store).averageField = some none
  ∧ (getAverageRatingsByTeacherId "bbbbbbbbbbbbbbbbbbbbbbbb" c7Store).totalField = some 0
  ∧ (getAverageRatingsByTeacherId "bbbbbbbbbbbbbbbbbbbbbbbb" c7Store).distributionField =
      none :=
  C7_zero_ratings_report c7Store "bbbbbbbbbbbbbbbbbbbbbbbb" uTeacher (by decide) (by decide)
    (by decide) (by decide) (by decide)

/-- Counterexample to claim C8: `getRatingsByLearnerId` (the spec's
`listRatingsByLearner`) does not reject the malformed 3-character identifier
"abc": the call is not a validation error, and it does query the store — the
result depends on the store contents.  (The id-format check in its source is
commented out.) -/
theorem C8_malformed_id_counterexample :
    ("abc".length ≠ 24)
  ∧ (getRatingsByLearnerId "abc" c8Store).isValidationError = false
  ∧ getRatingsByLearnerId "abc" c8Store ≠ getRatingsByLearnerId "abc" emptyStore := by
  decide

/-- Claim C8 as amended: `deleteRating` rejects every identifier whose length
is not 24 with a `ValidationError` before touching the store (the store is
returned unchanged for every store), but `getRatingsByLearnerId` performs no
identifier-format validation: any nonempty identifier, well-formed or not, is
looked up directly in the store. -/
theorem C8_malformed_id_validation (rid : String) (hne : rid ≠ "")
    (h24 : rid.length ≠ 24) :
    (∀ userId now s, deleteRating rid userId now s = (.invalidIdFormat, s))
  ∧ (∀ s u, findUser s rid = some u →
      getRatingsByLearnerId rid s =
        .ok u (sortByCreatedAtDesc (s.ratings.filter (fun r => r.learnerID == rid)))
          (sortByCreatedAtDesc (s.ratings.filter (fun r => r.learnerID == rid))).length) := by
  constructor
  · intro userId now s
    unfold deleteRating
    rw [if_neg hne, if_pos h24]
  · intro s u hu
    simp only [getRatingsByLearnerId, hne, hu, if_false, reduceIte]

/-- Witness for the amended C8: the 3-character id "abc" is rejected by
`deleteRating` but looked up in the store by `getRatingsByLearnerId`. -/
theorem C8_malformed_id_validation_witness :
    deleteRating "abc" "u" 0 emptyStore = (.invalidIdFormat, emptyStore)
  ∧ getRatingsByLearnerId "abc" c8Store =
      .ok { id := "abc", fullname := "Shorty", email := "s@example.com", role := "learner" }
        (sortByCreatedAtDesc (c8Store.ratings.filter (fun r => r.learnerID == "abc")))
        (sortByCreatedAtDesc (c8Store.ratings.filter (fun r => r.learnerID == "abc"))).length :=
  ⟨(C8_malformed_id_validation "abc" (by decide) (by decide)).1 "u" 0 emptyStore,
   (C8_malformed_id_validation "abc" (by decide) (by decide)).2 c8Store
     { id := "abc", fullname := "Shorty", email := "s@example.com", role := "learner" }
     (by decide)⟩

/-- Claim C9: `deleteRating` is idempotent on the store — assuming the store
invariant that rating ids are unique, deleting the same id twice with the
same arguments leaves the same store as deleting it once — while
`createRating` is not idempotent: a concrete duplicate submission is
rejected with the conflict exit, not merged. -/
theorem C9_delete_idempotent_create_not :
    (∀ (s : Store) (rid userId : String) (t₁ t₂ : ℕ),
      (s.ratings.map (fun r => r.id)).Nodup →
      (deleteRating rid userId t₂ (deleteRating rid userId t₁ s).2).2 =
        (deleteRating rid userId t₁ s).2)
  ∧ (∃ pr, (createRating "aaaaaaaaaaaaaaaaaaaaaaaa" "bbbbbbbbbbbbbbbbbbbbbbbb"
        "cccccccccccccccccccccccc" 4 "gggggggggggggggggggggggg" 7 c9Store).1 = .created pr)
  ∧ (createRating "aaaaaaaaaaaaaaaaaaaaaaaa" "bbbbbbbbbbbbbbbbbbbbbbbb"
        "cccccccccccccccccccccccc" 4 "hhhhhhhhhhhhhhhhhhhhhhhh" 8
        (createRating "aaaaaaaaaaaaaaaaaaaaaaaa" "bbbbbbbbbbbbbbbbbbbbbbbb"
          "cccccccccccccccccccccccc" 4 "gggggggggggggggggggggggg" 7 c9Store).2).1 =
      .alreadyRated := by
  refine ⟨?_, ⟨_, rfl⟩, by decide⟩
  intro s rid userId t₁ t₂ hnd
  by_cases h0 : rid = ""
  · simp [deleteRating, h0]
  by_cases h24 : rid.length ≠ 24
  · simp [deleteRating, h0, h24]
  cases hfind : findRatingById s rid with
  | none => simp [deleteRating, h0, h24, hfind]
  | some r =>
    by_cases hown : r.learnerID ≠ userId
    · simp [deleteRating, h0, h24, hfind, hown]
    · have hnone : findRatingById
          { s with ratings := s.ratings.eraseP (fun x => x.id == rid) } rid = none :=
        find?_eraseP_id rid s.ratings hnd
      simp [deleteRating, h0, h24, hfind, hown, hnone]

/-- Witness for C9: deleting the concrete rating twice leaves the store
exactly as deleting it once. -/
theorem C9_delete_idempotent_create_not_witness :
    (deleteRating "dddddddddddddddddddddddd" "aaaaaaaaaaaaaaaaaaaaaaaa" 12
        (deleteRating "dddddddddddddddddddddddd" "aaaaaaaaaaaaaaaaaaaaaaaa" 11 c5Store).2).2 =
      (deleteRating "dddddddddddddddddddddddd" "aaaaaaaaaaaaaaaaaaaaaaaa" 11 c5Store).2 :=
  C9_delete_idempotent_create_not.1 c5Store "dddddddddddddddddddddddd"
    "aaaaaaaaaaaaaaaaaaaaaaaa" 11 12 (by decide)

/-- Claim C10: `createRating` evaluates its failure gates in a fixed order —
missing fields, score range, learner exists, teacher exists, listing exists,
completed session exists, duplicate rating — and returns the error of the
first failing gate, so the reported error is deterministic and reveals
nothing about later gates; in particular a request with no completed session
receives the 403 session error even when a duplicate rating also exists. -/
theorem C10_create_gate_order (s : Store) (learnerID teacherID listingID : String)
    (q : ℚ) (newId : String) (now : ℕ) :
    ((learnerID = "" ∨ teacherID = "" ∨ listingID = "" ∨ q = 0) →
      (createRating learnerID teacherID listingID q newId now s).1 = .missingFields)
  ∧ (¬(learnerID = "" ∨ teacherID = "" ∨ listingID = "" ∨ q = 0) → (q < 1 ∨ 5 < q) →
      (createRating learnerID teacherID listingID q newId now s).1 = .scoreOutOfRange)
  ∧ (¬(learnerID = "" ∨ teacherID = "" ∨ listingID = "" ∨ q = 0) → ¬(q < 1 ∨ 5 < q) →
      findUser s learnerID = none →
      (createRating learnerID teacherID listingID q newId now s).1 = .learnerNotFound)
  ∧ (∀ l, ¬(learnerID = "" ∨ teacherID = "" ∨ listingID = "" ∨ q = 0) → ¬(q < 1 ∨ 5 < q) →
      findUser s learnerID = some l → findUser s teacherID = none →
      (createRating learnerID teacherID listingID q newId now s).1 = .teacherNotFound)
  ∧ (∀ l t, ¬(learnerID = "" ∨ teacherID = "" ∨ listingID = "" ∨ q = 0) → ¬(q < 1 ∨ 5 < q) →
      findUser s learnerID = some l → findUser s teacherID = some t →
      findListing s listingID = none →
      (createRating learnerID teacherID listingID q newId now s).1 = .listingNotFound)
  ∧ (∀ l t li, ¬(learnerID = "" ∨ teacherID = "" ∨ listingID = "" ∨ q = 0) →
      ¬(q < 1 ∨ 5 < q) →
      findUser s learnerID = some l → findUser s teacherID = some t →
      findListing s listingID = some li →
      findCompletedSession s learnerID teacherID listingID = none →
      (createRating learnerID teacherID listingID q newId now s).1 = .noCompletedSession)
  ∧ (∀ l t li sess r, ¬(learnerID = "" ∨ teacherID = "" ∨ listingID = "" ∨ q = 0) →
      ¬(q < 1 ∨ 5 < q) →
      findUser s learnerID = some l → findUser s teacherID = some t →
      findListing s listingID = some li →
      findCompletedSession s learnerID teacherID listingID = some sess →
      findRatingByTriple s learnerID teacherID listingID = some r →
      (createRating learnerID teacherID listingID q newId now s).1 = .alreadyRated)
  ∧ (∀ l t li sess, ¬(learnerID = "" ∨ teacherID = "" ∨ listingID = "" ∨ q = 0) →
      ¬(q < 1 ∨ 5 < q) →
      findUser s learnerID = some l → findUser s teacherID = some t →
      findListing s listingID = some li →
      findCompletedSession s learnerID teacherID listingID = some sess →
      findRatingByTriple s learnerID teacherID listingID = none →
      ∃ pr, (createRating learnerID teacherID listingID q newId now s).1 =
        .created pr) := by
  refine ⟨?_, ?_, ?_, ?_, ?_, ?_, ?_, ?_⟩
  · intro hm
    simp only [createRating, if_pos hm]
  · intro hm hr
    simp only [createRating, if_neg hm, if_pos hr]
  · intro hm hr hfl
    simp only [createRating, if_neg hm, if_neg hr, hfl]
  · intro l hm hr hfl hft
    simp only [createRating, if_neg hm, if_neg hr, hfl, hft]
  · intro l t hm hr hfl hft hfli
    simp only [createRating, if_neg hm, if_neg hr, hfl, hft, hfli]
  · intro l t li hm hr hfl hft hfli hsess
    simp only [createRating, if_neg hm, if_neg hr, hfl, hft, hfli, hsess]
  · intro l t li sess r hm hr hfl hft hfli hsess hdup
    simp only [createRating, if_neg hm, if_neg hr, hfl, hft, hfli, hsess, hdup]
  · intro l t li sess hm hr hfl hft hfli hsess hdup
    simp only [createRating, if_neg hm, if_neg hr, hfl, hft, hfli, hsess, hdup]
    exact ⟨_, rfl⟩

/-- Witness for C10: against a store that has a duplicate rating for the
triple but no completed session, the session gate fires first — the caller
gets the 403 session error, not the duplicate conflict. -/
theorem C10_create_gate_order_witness :
    (createRating "aaaaaaaaaaaaaaaaaaaaaaaa" "bbbbbbbbbbbbbbbbbbbbbbbb"
      "cccccccccccccccccccccccc" 2 "gggggggggggggggggggggggg" 5 c10Store).1 =
      .noCompletedSession :=
  (C10_create_gate_order c10Store "aaaaaaaaaaaaaaaaaaaaaaaa" "bbbbbbbbbbbbbbbbbbbbbbbb"
    "cccccccccccccccccccccccc" 2 "gggggggggggggggggggggggg" 5).2.2.2.2.2.1
    uLearner uTeacher lsGuitar (by decide) (by decide) (by decide) (by decide)
    (by decide) (by decide)

end SwapIt
